import Mathlib

/-!
Shallow embedding of `da-rod/ipinfo` (`src/main.go`): an HTTP service that
answers ASN and GeoIP lookups from two `geoip2` database readers held in
process-wide variables, with operator-triggered hot reload of either database.

The embedding models:
* Go 1.16 `net.ParseIP` (the Dockerfile pins `golang:1.16-alpine`), used by
  `getAS`/`getLocation` for input validation;
* the lookup functions `getAS`, `getLocation`, `getIPInfo`, with the geoip2
  readers as opaque query functions and reader invocations logged explicitly;
* the reload handlers for `/asn/reload` and `/geo/reload` as state
  transformers over a slot of database handles, emitting an event trace
  (open / close / assign) in source order;
* a small interleaving semantics for one reader goroutine racing one reload,
  to examine the close-while-in-use hazard.
-/

/-! ## Go 1.16 `net.ParseIP` model

An IP address is the 16-byte form Go's `net.IP` uses (IPv4 results are
returned in the 4-in-6 form produced by `net.IPv4`). Bytes are `Nat`s kept
below 256 by construction of the parser. Strings are handled as `List Char`;
the inputs at issue are ASCII, where Go's byte indexing and `Char` listing
agree, and a non-ASCII byte is neither `'.'`, `':'`, a digit nor a hex digit
on either reading.
-/

/-- `big` constant from Go's `net` dtoi/xtoi: 0xFFFFFF. -/
def netBig : Nat := 0xFFFFFF

/-- Loop of Go `dtoi`: parse a decimal run, returning (value, chars consumed, ok). -/
def dtoiAux : List Char → Nat → Nat → Nat × Nat × Bool
  | [], n, i => if i = 0 then (0, 0, false) else (n, i, true)
  | c :: rest, n, i =>
    if '0' ≤ c ∧ c ≤ '9' then
      let n' := n * 10 + (c.toNat - '0'.toNat)
      if n' ≥ netBig then (netBig, i, false)
      else dtoiAux rest n' (i + 1)
    else if i = 0 then (0, 0, false) else (n, i, true)

/-- Go `net.dtoi`: decimal prefix of `s`. -/
def dtoi (s : List Char) : Nat × Nat × Bool := dtoiAux s 0 0

/-- Hex digit value of a char, if it is one (cases of Go `xtoi`'s if-chain). -/
def hexVal (c : Char) : Option Nat :=
  if '0' ≤ c ∧ c ≤ '9' then some (c.toNat - '0'.toNat)
  else if 'a' ≤ c ∧ c ≤ 'f' then some (c.toNat - 'a'.toNat + 10)
  else if 'A' ≤ c ∧ c ≤ 'F' then some (c.toNat - 'A'.toNat + 10)
  else none

/-- Loop of Go `xtoi`: parse a hex run, returning (value, chars consumed, ok). -/
def xtoiAux : List Char → Nat → Nat → Nat × Nat × Bool
  | [], n, i => if i = 0 then (0, i, false) else (n, i, true)
  | c :: rest, n, i =>
    match hexVal c with
    | some v =>
      let n' := n * 16 + v
      if n' ≥ netBig then (0, i, false)
      else xtoiAux rest n' (i + 1)
    | none => if i = 0 then (0, i, false) else (n, i, true)

/-- Go `net.xtoi`: hexadecimal prefix of `s`. -/
def xtoi (s : List Char) : Nat × Nat × Bool := xtoiAux s 0 0

/-- The 12-byte v4-in-v6 marker Go's `net.IPv4` puts before the 4 IPv4 bytes. -/
def v4InV6Pfx : List Nat := [0, 0, 0, 0, 0, 0, 0, 0, 0, 0, 0xff, 0xff]

/-- Field loop of Go 1.16 `net.parseIPv4`: `i` is the octet index (0..3),
`acc` the octets already parsed. Go 1.16 has no leading-zero rejection. -/
def parseIPv4Fields : Nat → Nat → List Char → List Nat → Option (List Nat)
  | 0, _, s, acc => if s = [] then some acc else none
  | fuel + 1, i, s, acc =>
    if s = [] then none
    else
      let s1 : Option (List Char) :=
        if i > 0 then
          match s with
          | '.' :: r => some r
          | _ => none
        else some s
      match s1 with
      | none => none
      | some s2 =>
        let (n, c, ok) := dtoi s2
        if ¬ ok ∨ n > 0xFF then none
        else parseIPv4Fields fuel (i + 1) (s2.drop c) (acc ++ [n])

/-- Go 1.16 `net.parseIPv4`, result as the 16-byte `net.IPv4(...)` form. -/
def parseIPv4 (s : List Char) : Option (List Nat) :=
  (parseIPv4Fields 4 0 s []).map (fun p => v4InV6Pfx ++ p)

/-- End of Go `net.parseIPv6` after the loop: entire string must be consumed;
a short parse expands the ellipsis, a full parse must have no ellipsis. -/
def finishIPv6 (s : List Char) (acc : List Nat) (ell : Option Nat) :
    Option (List Nat) :=
  if s ≠ [] then none
  else if acc.length < 16 then
    match ell with
    | none => none
    | some e => some (acc.take e ++ List.replicate (16 - acc.length) 0 ++ acc.drop e)
  else
    match ell with
    | some _ => none
    | none => some acc

/-- Main loop of Go 1.16 `net.parseIPv6`. `acc` holds the bytes parsed so far
(Go's `ip[0:i]`, so `acc.length` is Go's `i`), `ell` the ellipsis position.
The loop runs while `i < 16` and grows `i` by at least 2 per iteration, so
fuel 16 more than covers Go's at most 8 iterations. -/
def parseIPv6Loop : Nat → List Char → List Nat → Option Nat → Option (List Nat)
  | fuel, s, acc, ell =>
    if acc.length ≥ 16 then finishIPv6 s acc ell
    else
      match fuel with
      | 0 => none
      | fuel' + 1 =>
        let (n, c, ok) := xtoi s
        if ¬ ok ∨ n > 0xFFFF then none
        else if (s.drop c).head? = some '.' then
          -- trailing IPv4 group
          if ell = none ∧ acc.length ≠ 12 then none
          else if acc.length + 4 > 16 then none
          else
            match parseIPv4 s with
            | none => none
            | some ip4 => finishIPv6 [] (acc ++ ip4.drop 12) ell
        else
          let acc1 := acc ++ [n / 256, n % 256]
          let s1 := s.drop c
          if s1 = [] then finishIPv6 [] acc1 ell
          else if s1.head? ≠ some ':' ∨ s1.length = 1 then none
          else
            let s2 := s1.drop 1
            if s2.head? = some ':' then
              if ell ≠ none then none
              else
                let s3 := s2.drop 1
                if s3 = [] then finishIPv6 [] acc1 (some acc1.length)
                else parseIPv6Loop fuel' s3 acc1 (some acc1.length)
            else parseIPv6Loop fuel' s2 acc1 ell

/-- Go 1.16 `net.parseIPv6`, including the possible leading ellipsis. -/
def parseIPv6 (s : List Char) : Option (List Nat) :=
  if s.length ≥ 2 ∧ s.head? = some ':' ∧ (s.drop 1).head? = some ':' then
    let s' := s.drop 2
    if s' = [] then some (List.replicate 16 0)
    else parseIPv6Loop 16 s' [] (some 0)
  else parseIPv6Loop 16 s [] none

/-- Go `net.splitHostZone`: strip a `%zone` suffix after the last `%` (only
when that `%` is not the first character); `net.ParseIP` discards the zone. -/
def splitHostZone (s : List Char) : List Char :=
  match (List.range s.length).filter (fun i => s.get? i = some '%') |>.getLast? with
  | some i => if i > 0 then s.take i else s
  | none => s

/-- Go 1.16 `net.ParseIP` dispatch: the first `'.'` or `':'` decides IPv4 vs
IPv6; a string with neither is not an IP. -/
def parseIPChars : List Char → Option (List Nat)
  | s =>
    match s.find? (fun c => c = '.' ∨ c = ':') with
    | some '.' => parseIPv4 s
    | some _ => parseIPv6 (splitHostZone s)
    | none => none

/-- Go 1.16 `net.ParseIP` on a Lean `String`. -/
def parseIP (s : String) : Option (List Nat) := parseIPChars s.toList

/-! ## Records and errors (`main.go` types `as`, `location`, `ipinfo`)

Go returns `(record, error)` pairs; errors are modelled as an inductive: the
`invalid ip address %q` error of `getAS`/`getLocation` carries the raw textual
input it echoes, and reader failures carry the reader's message. -/

/-- `type as struct { Number uint; Name string }` from `main.go`. -/
structure as where
  Number : Nat
  Name : String
  deriving Repr, DecidableEq

/-- Go zero value `as{}`. -/
def as.zero : as := ⟨0, ""⟩

/-- `type location struct { ... }` from `main.go`. -/
structure location where
  Continent : String
  ContinentCode : String
  Country : String
  CountryCode : String
  City : String
  deriving Repr, DecidableEq

/-- Go zero value `location{}`. -/
def location.zero : location := ⟨"", "", "", "", ""⟩

/-- `type ipinfo struct { AS as; Location location }` from `main.go`. -/
structure ipinfo where
  AS : as
  Location : location
  deriving Repr, DecidableEq

/-- The errors `getAS`/`getLocation` can return: the
`fmt.Errorf("invalid ip address %q", ip)` error, which echoes the textual
input, or an error propagated from the geoip2 reader. -/
inductive GoErr where
  | invalidInput (input : String)
  | readerErr (msg : String)
  deriving Repr, DecidableEq

/-! ## geoip2 reader models (opaque external collaborator)

A reader handle is a query function from a 16-byte IP to a record or an
error message. Names maps (`geo.Continent.Names` etc.) are association
lists; Go map indexing yields the zero string when the key is absent. -/

/-- `geoip2.ASN` result record (the two fields `getAS` reads). -/
structure ASNData where
  AutonomousSystemNumber : Nat
  AutonomousSystemOrganization : String
  deriving Repr, DecidableEq

/-- `geo.Continent` part of a `geoip2.City` record (fields `getLocation` reads). -/
structure ContinentData where
  Names : List (String × String)
  Code : String
  deriving Repr, DecidableEq

/-- `geo.Country` part of a `geoip2.City` record (fields `getLocation` reads). -/
structure CountryData where
  Names : List (String × String)
  IsoCode : String
  deriving Repr, DecidableEq

/-- `geo.City` part of a `geoip2.City` record (field `getLocation` reads). -/
structure CityNames where
  Names : List (String × String)
  deriving Repr, DecidableEq

/-- `geoip2.City` result record (the parts `getLocation` reads). -/
structure CityData where
  Continent : ContinentData
  Country : CountryData
  City : CityNames
  deriving Repr, DecidableEq

/-- Go map indexing `m[k]` on a `map[string]string`: the entry, or the zero
string when absent. -/
def goMapGet (m : List (String × String)) (k : String) : String :=
  (m.lookup k).getD ""

/-- An opened ASN database handle: `(*geoip2.Reader).ASN`. -/
def AsnDb : Type := List Nat → Except String ASNData

/-- An opened GeoIP database handle: `(*geoip2.Reader).City`. -/
def CityDb : Type := List Nat → Except String CityData

/-! ## Lookup functions `getAS`, `getLocation`, `getIPInfo`

Each returns the Go `(record, error)` pair, plus the list of IPs for which
the underlying reader was invoked during the call (the log makes "the reader
is never invoked" an observable of the embedding). -/

/-- `getAS` from `main.go`: parse the textual IP, fail with the
invalid-input error without touching the reader if unparsable, otherwise
query the ASN reader and translate its record or error. -/
def getAS (rd : AsnDb) (ip : String) : (as × Option GoErr) × List (List Nat) :=
  match parseIP ip with
  | none => ((as.zero, some (GoErr.invalidInput ip)), [])
  | some ipaddr =>
    match rd ipaddr with
    | .error e => ((as.zero, some (GoErr.readerErr e)), [ipaddr])
    | .ok data =>
      ((⟨data.AutonomousSystemNumber, data.AutonomousSystemOrganization⟩, none),
       [ipaddr])

/-- `getLocation` from `main.go`: parse the textual IP, fail with the
invalid-input error without touching the reader if unparsable, otherwise
query the GeoIP reader; names are indexed by the configured language
(`Names[*lang]`), codes are taken from the record's code fields. -/
def getLocation (lang : String) (rd : CityDb) (ip : String) :
    (location × Option GoErr) × List (List Nat) :=
  match parseIP ip with
  | none => ((location.zero, some (GoErr.invalidInput ip)), [])
  | some ipaddr =>
    match rd ipaddr with
    | .error e => ((location.zero, some (GoErr.readerErr e)), [ipaddr])
    | .ok geo =>
      ((⟨goMapGet geo.Continent.Names lang,
         geo.Continent.Code,
         goMapGet geo.Country.Names lang,
         geo.Country.IsoCode,
         goMapGet geo.City.Names lang⟩, none),
       [ipaddr])

/-- `getIPInfo` from `main.go`: `asData, _ := getAS(ip)` (AS error discarded),
`loData, err := getLocation(ip)`, result is the pair with the location error
as the overall error. -/
def getIPInfo (lang : String) (rdA : AsnDb) (rdG : CityDb) (ip : String) :
    ipinfo × Option GoErr :=
  let asData := ((getAS rdA ip).1).1
  let lo := (getLocation lang rdG ip).1
  (⟨asData, lo.1⟩, lo.2)

/-! ## Configuration and language normalization (`init` in `main.go`) -/

/-- The language allow-list of the `switch *lang` in `init`. -/
def allowedLangs : List String := ["en", "de", "es", "fr", "ja", "pt-BR", "ru", "zh-CN"]

/-- The `switch *lang { case "en", ... : default: *lang = "en" }` in `init`:
a listed language is kept, anything else falls back to English. -/
def normalizeLang (l : String) : String :=
  if l ∈ allowedLangs then l else "en"

/-- The process configuration fixed by `init` (env vars / flags); the
`asnDB`, `geoDB` and `lang` globals are never written after `init`. -/
structure Config where
  addr : String
  asnDB : String
  geoDB : String
  lang : String

/-! ## Reload handlers and server state

A slot tracks the handles a global reader variable has pointed at: `table`
maps a handle id to its query function, `closed` marks handles on which
`Close` was called, `current` is the id the global points at. The reload
handlers of `main.go` are state transformers on the slot; they emit the
trace of handle events in source order: `loadDB(*asnDB)` (open), then
`unloadDB(asnReader)` (close of the current handle), then
`asnReader = newReader` (assign). -/

/-- One handle event of a reload: opening a path, closing a handle,
assigning a handle to the global reader variable. -/
inductive Ev where
  | openEv (path : String)
  | closeEv (id : Nat)
  | assignEv (id : Nat)
  deriving Repr, DecidableEq

/-- Response payload (gin JSON bodies, at the granularity the claims need). -/
inductive Payload where
  | asP (a : as)
  | locP (l : location)
  | ipinfoP (i : ipinfo)
  | errField (e : GoErr)
  | fields (kv : List (String × String))
  deriving Repr, DecidableEq

/-- An HTTP response: status code and JSON payload. -/
structure Response where
  status : Nat
  body : Payload
  deriving Repr, DecidableEq

/-- The handle history of one global reader variable. -/
structure SlotState (α : Type) where
  current : Nat
  nextId : Nat
  table : Nat → α
  closed : Nat → Bool

/-- The body shared by the `/asn/reload` and `/geo/reload` closures in
`main.go`: `newReader, err := loadDB(path)`; on error respond 500 and leave
the reader untouched; otherwise `unloadDB(current)` then
`current = newReader` and respond 200 with `okMsg`. -/
def reloadStep {α : Type} (openDB : String → Except String α) (path okMsg : String)
    (st : SlotState α) : SlotState α × List Ev × Response :=
  match openDB path with
  | .error e =>
    (st, [Ev.openEv path],
     ⟨500, Payload.fields
        [("error", e), ("message", "failed to load database; using previous one...")]⟩)
  | .ok db =>
    let newId := st.nextId
    let st1 : SlotState α :=
      { current := newId
        nextId := newId + 1
        table := fun i => if i = newId then db else st.table i
        closed := fun i => if i = st.current then true else st.closed i }
    (st1, [Ev.openEv path, Ev.closeEv st.current, Ev.assignEv newId],
     ⟨200, Payload.fields [("message", okMsg)]⟩)

/-- Whole-process state: configuration plus the two reader slots. -/
structure Server where
  cfg : Config
  asnSlot : SlotState AsnDb
  geoSlot : SlotState CityDb

/-- The ASN handle currently pointed at by `asnReader`. -/
def Server.asnReader (sv : Server) : AsnDb := sv.asnSlot.table sv.asnSlot.current

/-- The GeoIP handle currently pointed at by `locReader`. -/
def Server.locReader (sv : Server) : CityDb := sv.geoSlot.table sv.geoSlot.current

/-- Caller-supplied request data: the `:ip` path parameter and any other
query-string data (the reload routes take no parameter; their handlers read
nothing from the request). -/
structure Request where
  paramIp : String
  query : List (String × String)

/-- The `/asn/reload` closure: reload from the configured `*asnDB` path.
`fsA` stands for `geoip2.Open` on the filesystem; the request is unused. -/
def asnReloadHandler (fsA : String → Except String AsnDb) (sv : Server)
    (_req : Request) : Server × List Ev × Response :=
  let r := reloadStep fsA sv.cfg.asnDB "asn database reloaded successfully" sv.asnSlot
  ({ sv with asnSlot := r.1 }, r.2.1, r.2.2)

/-- The `/geo/reload` closure: reload from the configured `*geoDB` path. -/
def geoReloadHandler (fsG : String → Except String CityDb) (sv : Server)
    (_req : Request) : Server × List Ev × Response :=
  let r := reloadStep fsG sv.cfg.geoDB "geoip database reloaded successfully" sv.geoSlot
  ({ sv with geoSlot := r.1 }, r.2.1, r.2.2)

/-- The `/asn/:ip` closure: `getAS(c.Param("ip"))`, 500 with the error or
200 with the record; no state is written. -/
def asnQueryHandler (sv : Server) (req : Request) : Server × Response :=
  match (getAS sv.asnReader req.paramIp).1 with
  | (_, some e) => (sv, ⟨500, Payload.errField e⟩)
  | (asn, none) => (sv, ⟨200, Payload.asP asn⟩)

/-- The `/geo/:ip` closure: `getLocation(c.Param("ip"))`. -/
def geoQueryHandler (sv : Server) (req : Request) : Server × Response :=
  match (getLocation sv.cfg.lang sv.locReader req.paramIp).1 with
  | (_, some e) => (sv, ⟨500, Payload.errField e⟩)
  | (geo, none) => (sv, ⟨200, Payload.locP geo⟩)

/-- The `/ipinfo/:ip` closure: `getIPInfo(c.Param("ip"))`. -/
def ipinfoQueryHandler (sv : Server) (req : Request) : Server × Response :=
  match getIPInfo sv.cfg.lang sv.asnReader sv.locReader req.paramIp with
  | (_, some e) => (sv, ⟨500, Payload.errField e⟩)
  | (ipdata, none) => (sv, ⟨200, Payload.ipinfoP ipdata⟩)

/-- The five gin routes of `main`. -/
inductive Route where
  | asnReload
  | asnIp
  | geoReload
  | geoIp
  | ipinfoIp
  deriving Repr, DecidableEq

/-- Route dispatch of `main`: one request against the server state. -/
def handle (fsA : String → Except String AsnDb) (fsG : String → Except String CityDb)
    (sv : Server) (rt : Route) (req : Request) : Server × Response :=
  match rt with
  | .asnReload => let r := asnReloadHandler fsA sv req; (r.1, r.2.2)
  | .asnIp => asnQueryHandler sv req
  | .geoReload => let r := geoReloadHandler fsG sv req; (r.1, r.2.2)
  | .geoIp => geoQueryHandler sv req
  | .ipinfoIp => ipinfoQueryHandler sv req

/-! ## Interleaving model: one reader goroutine racing one reload

`main.go` has no synchronization around the global reader variables. A query
goroutine executes `asnReader.ASN(ipaddr)`: it reads the global, then runs
the lookup on that handle. The reload goroutine executes `loadDB` (open),
`unloadDB(asnReader)` (close the handle the global still points at), then
`asnReader = newReader` (assign). Each of these is one atomic action here;
a schedule is a list of actions, actions whose goroutine is not at the
matching program point are no-ops. -/

/-- Atomic actions: the reader fetches the global / runs its lookup on the
fetched handle; the writer opens / closes / assigns during a reload. -/
inductive Act where
  | rFetch
  | rUse
  | wOpen
  | wClose
  | wAssign
  deriving Repr, DecidableEq

/-- Shared-memory state for the race: handle ids, the close flags, the
writer's program counter and local `newReader`, the reader's fetched handle,
and whether the reader has run a lookup on an already-closed handle. -/
structure ConcState where
  current : Nat
  nextId : Nat
  closed : Nat → Bool
  wpc : Nat
  wNew : Option Nat
  rHeld : Option Nat
  usedClosed : Bool

/-- One atomic action of the race. -/
def concStep (s : ConcState) : Act → ConcState
  | .rFetch => if s.rHeld = none then { s with rHeld := some s.current } else s
  | .rUse =>
    match s.rHeld with
    | some h => { s with usedClosed := s.usedClosed || s.closed h }
    | none => s
  | .wOpen =>
    if s.wpc = 0 then { s with wpc := 1, wNew := some s.nextId, nextId := s.nextId + 1 }
    else s
  | .wClose =>
    if s.wpc = 1 then
      { s with wpc := 2, closed := fun i => if i = s.current then true else s.closed i }
    else s
  | .wAssign =>
    match s.wNew with
    | some n => if s.wpc = 2 then { s with wpc := 3, current := n } else s
    | none => s

/-- Run a schedule from a state. -/
def concRun (s : ConcState) (sched : List Act) : ConcState := sched.foldl concStep s

/-- Post-startup state: handle 0 open and current, no reload started. -/
def concInit : ConcState :=
  { current := 0, nextId := 1, closed := fun _ => false, wpc := 0, wNew := none,
    rHeld := none, usedClosed := false }

/-! ## Concrete fixtures -/

/-- An ASN handle with a record for every IP. -/
def asnDb0 : AsnDb := fun _ => .ok ⟨15169, "Google LLC"⟩

/-- An ASN handle that errors on every lookup. -/
def asnDbErr : AsnDb := fun _ => .error "asn reader failure"

/-- A GeoIP record with en/fr names. -/
def geoRec0 : CityData :=
  ⟨⟨[("en", "North America"), ("fr", "Amerique du Nord")], "NA"⟩,
   ⟨[("en", "United States"), ("fr", "Etats-Unis")], "US"⟩,
   ⟨[("en", "Mountain View")]⟩⟩

/-- A GeoIP handle returning `geoRec0` for every IP. -/
def cityDb0 : CityDb := fun _ => .ok geoRec0

/-- A GeoIP handle that errors on every lookup. -/
def cityDbErr : CityDb := fun _ => .error "geo reader failure"

/-- A concrete configuration. -/
def cfg0 : Config := ⟨":8080", "asn.mmdb", "geo.mmdb", "en"⟩

/-- Initial ASN slot: handle 0 current, nothing closed. -/
def slotA0 : SlotState AsnDb := ⟨0, 1, fun _ => asnDb0, fun _ => false⟩

/-- Initial GeoIP slot: handle 0 current, nothing closed. -/
def slotG0 : SlotState CityDb := ⟨0, 1, fun _ => cityDb0, fun _ => false⟩

/-- A concrete post-startup server state. -/
def sv0 : Server := ⟨cfg0, slotA0, slotG0⟩

/-- A concrete request. -/
def req0 : Request := ⟨"8.8.8.8", []⟩

/-- A request whose caller smuggles a path in the query string. -/
def req1 : Request := ⟨"", [("path", "evil.mmdb")]⟩

/-- A filesystem where only the configured databases exist. -/
def fsA0 : String → Except String AsnDb :=
  fun p => if p = "asn.mmdb" then .ok asnDb0 else
    .error ("open " ++ p ++ ": no such file or directory")

/-- A filesystem where only the configured databases exist (GeoIP side). -/
def fsG0 : String → Except String CityDb :=
  fun p => if p = "geo.mmdb" then .ok cityDb0 else
    .error ("open " ++ p ++ ": no such file or directory")

/-- A filesystem where every ASN open fails. -/
def fsAErr : String → Except String AsnDb :=
  fun p => .error ("open " ++ p ++ ": no such file or directory")

/-- The list of paths opened along a reload event trace. -/
def opensOf : List Ev → List String
  | [] => []
  | Ev.openEv p :: r => p :: opensOf r
  | Ev.closeEv _ :: r => opensOf r
  | Ev.assignEv _ :: r => opensOf r

/-! ## Helper lemmas -/

/-- `getAS` returns the zero record alongside any error. -/
theorem getAS_err_zero (rd : AsnDb) (s : String)
    (h : ((getAS rd s).1).2 ≠ none) : ((getAS rd s).1).1 = as.zero := by
  rcases hp : parseIP s with _ | ipaddr
  · simp [getAS, hp]
  · rcases hq : rd ipaddr with e | d
    · simp [getAS, hp, hq]
    · simp [getAS, hp, hq] at h

/-- `getLocation` returns the zero record alongside any error. -/
theorem getLocation_err_zero (lang : String) (rd : CityDb) (s : String)
    (h : ((getLocation lang rd s).1).2 ≠ none) :
    ((getLocation lang rd s).1).1 = location.zero := by
  rcases hp : parseIP s with _ | ipaddr
  · simp [getLocation, hp]
  · rcases hq : rd ipaddr with e | geo
    · simp [getLocation, hp, hq]
    · simp [getLocation, hp, hq] at h

/-- The `/asn/:ip` handler writes no state. -/
theorem asnQueryHandler_state (sv : Server) (req : Request) :
    (asnQueryHandler sv req).1 = sv := by
  unfold asnQueryHandler
  rcases (getAS sv.asnReader req.paramIp).1 with ⟨a, e⟩
  cases e <;> rfl

/-- The `/geo/:ip` handler writes no state. -/
theorem geoQueryHandler_state (sv : Server) (req : Request) :
    (geoQueryHandler sv req).1 = sv := by
  unfold geoQueryHandler
  rcases (getLocation sv.cfg.lang sv.locReader req.paramIp).1 with ⟨g, e⟩
  cases e <;> rfl

/-- The `/ipinfo/:ip` handler writes no state. -/
theorem ipinfoQueryHandler_state (sv : Server) (req : Request) :
    (ipinfoQueryHandler sv req).1 = sv := by
  unfold ipinfoQueryHandler
  rcases getIPInfo sv.cfg.lang sv.asnReader sv.locReader req.paramIp with ⟨i, e⟩
  cases e <;> rfl

/-! ## Parser sanity checks -/

example : parseIP "not-an-ip" = none := by decide
example : parseIP "8.8.8.8" = some (v4InV6Pfx ++ [8, 8, 8, 8]) := by decide
example : parseIP "1.2.3.4.5" = none := by decide
example : parseIP "256.1.1.1" = none := by decide
example : parseIP "010.1.1.1" = some (v4InV6Pfx ++ [10, 1, 1, 1]) := by decide
example : parseIP "::1" = some (List.replicate 15 0 ++ [1]) := by decide
example : parseIP "2001:db8::ff" =
    some [0x20, 0x01, 0x0d, 0xb8, 0, 0, 0, 0, 0, 0, 0, 0, 0, 0, 0, 0xff] := by
  decide
example : parseIP "::ffff:1.2.3.4" = some (v4InV6Pfx ++ [1, 2, 3, 4]) := by decide
example : parseIP "1::2::3" = none := by decide
example : parseIP "" = none := by decide
example : parseIP ":" = none := by decide
example : parseIP "fe80::1%eth0" =
    some [0xfe, 0x80, 0, 0, 0, 0, 0, 0, 0, 0, 0, 0, 0, 0, 0, 1] := by decide

/-! ## Claim theorems -/

/-- C1: for every input string, `getIPInfo` discards the AS-lookup error (the
AS field is the zero record when the AS lookup errored) and returns the
location-lookup error as the overall error: if the location lookup succeeds
and the AS lookup errors, the result is the populated location, the zero
`as`, and no error; if the location lookup errors, the call errors. -/
theorem getIPInfo_partial_failure_policy (lang : String) (rdA : AsnDb) (rdG : CityDb)
    (s : String) :
    (getIPInfo lang rdA rdG s).2 = ((getLocation lang rdG s).1).2 ∧
    (((getAS rdA s).1).2 ≠ none → ((getLocation lang rdG s).1).2 = none →
      getIPInfo lang rdA rdG s = (⟨as.zero, ((getLocation lang rdG s).1).1⟩, none)) ∧
    (((getLocation lang rdG s).1).2 ≠ none → (getIPInfo lang rdA rdG s).2 ≠ none) := by
  refine ⟨rfl, ?_, ?_⟩
  · intro hA hL
    simp only [getIPInfo]
    rw [getAS_err_zero rdA s hA, hL]
  · intro hL hc
    exact hL hc

/-- C1 witness: AS reader errors, location succeeds, overall success with
zero AS and populated location. -/
theorem getIPInfo_partial_failure_policy_witness :
    getIPInfo "en" asnDbErr cityDb0 "8.8.8.8" =
      (⟨as.zero, ⟨"North America", "NA", "United States", "US", "Mountain View"⟩⟩, none) := by
  have h := (getIPInfo_partial_failure_policy "en" asnDbErr cityDb0 "8.8.8.8").2.1
    (by decide) (by decide)
  rw [h]
  decide

/-- C2 counterexample: on a concrete state where the open succeeds, the
reload handler's event trace is open, then close of the previously-current
handle, then assign of the new handle — not the claimed open, assign, close:
`unloadDB(asnReader)` runs before `asnReader = newReader` in `main.go`. -/
theorem reload_order_as_claimed_cex :
    (asnReloadHandler fsA0 sv0 req0).2.1 =
      [Ev.openEv "asn.mmdb", Ev.closeEv 0, Ev.assignEv 1] ∧
    ¬ (asnReloadHandler fsA0 sv0 req0).2.1 =
      [Ev.openEv "asn.mmdb", Ev.assignEv 1, Ev.closeEv 0] := by
  constructor
  · rfl
  · decide

/-- C2 (amended): every reload whose open succeeds performs, in order: open
of the new database from the configured path, then close of the
previously-current handle, then the swap of the new handle into the global
reader variable — the close precedes the swap, it does not follow it. -/
theorem reload_event_order (fsA : String → Except String AsnDb)
    (fsG : String → Except String CityDb) (sv : Server) (req : Request)
    (dbA : AsnDb) (dbG : CityDb)
    (hA : fsA sv.cfg.asnDB = .ok dbA) (hG : fsG sv.cfg.geoDB = .ok dbG) :
    (asnReloadHandler fsA sv req).2.1 =
      [Ev.openEv sv.cfg.asnDB, Ev.closeEv sv.asnSlot.current,
       Ev.assignEv sv.asnSlot.nextId] ∧
    (geoReloadHandler fsG sv req).2.1 =
      [Ev.openEv sv.cfg.geoDB, Ev.closeEv sv.geoSlot.current,
       Ev.assignEv sv.geoSlot.nextId] := by
  constructor
  · simp [asnReloadHandler, reloadStep, hA]
  · simp [geoReloadHandler, reloadStep, hG]

/-- C2 witness: the amended order on a concrete state and filesystem. -/
theorem reload_event_order_witness :
    fsA0 sv0.cfg.asnDB = Except.ok asnDb0 ∧ fsG0 sv0.cfg.geoDB = Except.ok cityDb0 ∧
    (asnReloadHandler fsA0 sv0 req0).2.1 =
      [Ev.openEv sv0.cfg.asnDB, Ev.closeEv sv0.asnSlot.current,
       Ev.assignEv sv0.asnSlot.nextId] ∧
    (geoReloadHandler fsG0 sv0 req0).2.1 =
      [Ev.openEv sv0.cfg.geoDB, Ev.closeEv sv0.geoSlot.current,
       Ev.assignEv sv0.geoSlot.nextId] :=
  ⟨rfl, rfl, (reload_event_order fsA0 fsG0 sv0 req0 asnDb0 cityDb0 rfl rfl).1,
   (reload_event_order fsA0 fsG0 sv0 req0 asnDb0 cityDb0 rfl rfl).2⟩

/-- C3: a reload whose open fails leaves the whole server state unchanged
(the previously-current handle keeps serving, so every later `getAS` returns
what it returned before the attempt) and reports the failure with a 500
response carrying the open error. -/
theorem reload_open_failure_noop (fsA : String → Except String AsnDb) (sv : Server)
    (req : Request) (e : String) (h : fsA sv.cfg.asnDB = .error e) :
    (asnReloadHandler fsA sv req).1 = sv ∧
    (asnReloadHandler fsA sv req).2.2 =
      ⟨500, Payload.fields
        [("error", e),
         ("message", "failed to load database; using previous one...")]⟩ ∧
    ∀ ip, getAS ((asnReloadHandler fsA sv req).1).asnReader ip =
      getAS sv.asnReader ip := by
  have hs : (asnReloadHandler fsA sv req).1 = sv := by
    simp [asnReloadHandler, reloadStep, h]
  exact ⟨hs, by simp [asnReloadHandler, reloadStep, h], fun ip => by rw [hs]⟩

/-- C3 witness: a failed reload against a concrete state, with a concrete
query returning the same record before and after. -/
theorem reload_open_failure_noop_witness :
    fsAErr sv0.cfg.asnDB = Except.error "open asn.mmdb: no such file or directory" ∧
    (asnReloadHandler fsAErr sv0 req0).1 = sv0 ∧
    getAS ((asnReloadHandler fsAErr sv0 req0).1).asnReader "8.8.8.8" =
      getAS sv0.asnReader "8.8.8.8" :=
  ⟨rfl,
   (reload_open_failure_noop fsAErr sv0 req0
     "open asn.mmdb: no such file or directory" rfl).1,
   (reload_open_failure_noop fsAErr sv0 req0
     "open asn.mmdb: no such file or directory" rfl).2.2 "8.8.8.8"⟩

/-- C4: a string `net.ParseIP` rejects makes `getAS` and `getLocation`
return the invalid-input error echoing that string, with the zero record,
and the underlying reader is never invoked (empty invocation log). -/
theorem invalid_ip_rejected_without_reader (rdA : AsnDb) (rdG : CityDb)
    (lang s : String) (h : parseIP s = none) :
    getAS rdA s = ((as.zero, some (GoErr.invalidInput s)), []) ∧
    getLocation lang rdG s = ((location.zero, some (GoErr.invalidInput s)), []) := by
  constructor
  · unfold getAS; rw [h]
  · unfold getLocation; rw [h]

/-- C4 witness: `"not-an-ip"` is rejected without touching the reader. -/
theorem invalid_ip_rejected_without_reader_witness :
    parseIP "not-an-ip" = none ∧
    getAS asnDb0 "not-an-ip" = ((as.zero, some (GoErr.invalidInput "not-an-ip")), []) ∧
    getLocation "en" cityDb0 "not-an-ip" =
      ((location.zero, some (GoErr.invalidInput "not-an-ip")), []) :=
  ⟨by decide,
   (invalid_ip_rejected_without_reader asnDb0 cityDb0 "en" "not-an-ip" (by decide)).1,
   (invalid_ip_rejected_without_reader asnDb0 cityDb0 "en" "not-an-ip" (by decide)).2⟩

/-- C5: evidence of the defect. Two concrete interleavings of one query
goroutine with one successful reload make the reader run its lookup on a
handle on which `Close` has already been called: (1) the reader fetches the
global, the reload then opens, closes and assigns, and the reader's
still-in-flight lookup uses the closed handle; (2) between the reload's
close and its assign, a fresh fetch still returns the old — already closed —
handle, because `unloadDB` runs before the global is reassigned. -/
theorem reader_uses_closed_handle :
    (concRun concInit [Act.rFetch, Act.wOpen, Act.wClose, Act.wAssign, Act.rUse]).usedClosed
      = true ∧
    (concRun concInit [Act.wOpen, Act.wClose, Act.rFetch, Act.rUse]).usedClosed
      = true := by
  constructor
  · rfl
  · rfl

/-- C6: a successful `getLocation` fills continent, country and city with the
display name for the configured language, read by Go map indexing from the
record's names map: the empty string when that language is absent, and
depending only on the entry for that language (no fallback to another one). -/
theorem getLocation_language_names (lang : String) (rd : CityDb) (s : String)
    (ip : List Nat) (geo : CityData) (hp : parseIP s = some ip)
    (hq : rd ip = .ok geo) :
    (getLocation lang rd s).1 =
      (⟨goMapGet geo.Continent.Names lang, geo.Continent.Code,
        goMapGet geo.Country.Names lang, geo.Country.IsoCode,
        goMapGet geo.City.Names lang⟩, none) ∧
    (∀ m : List (String × String), m.lookup lang = none → goMapGet m lang = "") ∧
    (∀ m m' : List (String × String), m.lookup lang = m'.lookup lang →
      goMapGet m lang = goMapGet m' lang) := by
  refine ⟨?_, ?_, ?_⟩
  · simp [getLocation, hp, hq]
  · intro m hm; simp [goMapGet, hm]
  · intro m m' hmm; simp [goMapGet, hmm]

/-- C6 witness: with language `fr`, names are the French ones and the city —
which has no French name in the record — is the empty string. -/
theorem getLocation_language_names_witness :
    parseIP "8.8.8.8" = some (v4InV6Pfx ++ [8, 8, 8, 8]) ∧
    (getLocation "fr" cityDb0 "8.8.8.8").1 =
      (⟨"Amerique du Nord", "NA", "Etats-Unis", "US", ""⟩, none) := by
  constructor
  · decide
  · have h := (getLocation_language_names "fr" cityDb0 "8.8.8.8"
      (v4InV6Pfx ++ [8, 8, 8, 8]) geoRec0 (by decide) rfl).1
    rw [h]
    decide

/-- C7: a configured language outside the allow-list is normalized to `en`
by `init`, and the configuration (including the language) is process-wide
read-only state: no request handler changes it. -/
theorem lang_normalized_and_process_wide (l : String) (hl : l ∉ allowedLangs)
    (fsA : String → Except String AsnDb) (fsG : String → Except String CityDb)
    (sv : Server) (rt : Route) (req : Request) :
    normalizeLang l = "en" ∧ ((handle fsA fsG sv rt req).1).cfg = sv.cfg := by
  constructor
  · simp [normalizeLang, hl]
  · cases rt
    case asnReload => rfl
    case geoReload => rfl
    case asnIp => exact congrArg Server.cfg (asnQueryHandler_state sv req)
    case geoIp => exact congrArg Server.cfg (geoQueryHandler_state sv req)
    case ipinfoIp => exact congrArg Server.cfg (ipinfoQueryHandler_state sv req)

/-- C7 witness: `"xx"` is not allow-listed and normalizes to `en`; a reload
request leaves the configuration unchanged. -/
theorem lang_normalized_and_process_wide_witness :
    "xx" ∉ allowedLangs ∧ normalizeLang "xx" = "en" ∧
    ((handle fsA0 fsG0 sv0 Route.asnReload req1).1).cfg = sv0.cfg :=
  ⟨by decide,
   (lang_normalized_and_process_wide "xx" (by decide) fsA0 fsG0 sv0
     Route.asnReload req1).1,
   (lang_normalized_and_process_wide "xx" (by decide) fsA0 fsG0 sv0
     Route.asnReload req1).2⟩

/-- C8: whenever `getAS` or `getLocation` returns an error, the record
returned alongside it is the zero value of its type; contrapositively, a
non-zero record comes only with a nil error. -/
theorem records_zero_exactly_on_error (rdA : AsnDb) (rdG : CityDb)
    (lang s : String) :
    (((getAS rdA s).1).2 ≠ none → ((getAS rdA s).1).1 = as.zero) ∧
    (((getAS rdA s).1).1 ≠ as.zero → ((getAS rdA s).1).2 = none) ∧
    (((getLocation lang rdG s).1).2 ≠ none →
      ((getLocation lang rdG s).1).1 = location.zero) ∧
    (((getLocation lang rdG s).1).1 ≠ location.zero →
      ((getLocation lang rdG s).1).2 = none) := by
  refine ⟨getAS_err_zero rdA s, ?_, getLocation_err_zero lang rdG s, ?_⟩
  · intro hnz
    by_contra he
    exact hnz (getAS_err_zero rdA s he)
  · intro hnz
    by_contra he
    exact hnz (getLocation_err_zero lang rdG s he)

/-- C8 witness: a failing reader yields an error together with the zero
records. -/
theorem records_zero_exactly_on_error_witness :
    ((getAS asnDbErr "8.8.8.8").1).2 ≠ none ∧
    ((getAS asnDbErr "8.8.8.8").1).1 = as.zero ∧
    ((getLocation "en" cityDbErr "8.8.8.8").1).1 = location.zero :=
  ⟨by decide,
   (records_zero_exactly_on_error asnDbErr cityDbErr "en" "8.8.8.8").1 (by decide),
   (records_zero_exactly_on_error asnDbErr cityDbErr "en" "8.8.8.8").2.2.1 (by decide)⟩

/-- C9: the `ContinentCode` and `CountryCode` of a successful `getLocation`
result do not depend on the configured language: they are copied from the
record's code fields, never from the localized names maps. -/
theorem location_codes_language_independent (l1 l2 : String) (rd : CityDb)
    (s : String) (h : ((getLocation l1 rd s).1).2 = none) :
    ((getLocation l1 rd s).1).1.ContinentCode =
      ((getLocation l2 rd s).1).1.ContinentCode ∧
    ((getLocation l1 rd s).1).1.CountryCode =
      ((getLocation l2 rd s).1).1.CountryCode := by
  rcases hp : parseIP s with _ | ipaddr
  · simp [getLocation, hp] at h
  · rcases hq : rd ipaddr with e | geo
    · simp [getLocation, hp, hq] at h
    · simp [getLocation, hp, hq]

/-- C9 witness: `en` and `ja` runs agree on the country code. -/
theorem location_codes_language_independent_witness :
    ((getLocation "en" cityDb0 "8.8.8.8").1).2 = none ∧
    ((getLocation "en" cityDb0 "8.8.8.8").1).1.CountryCode =
      ((getLocation "ja" cityDb0 "8.8.8.8").1).1.CountryCode :=
  ⟨by decide,
   (location_codes_language_independent "en" "ja" cityDb0 "8.8.8.8" (by decide)).2⟩

/-- C10: both reload handlers open exactly the path fixed in the
configuration (`*asnDB` / `*geoDB`), the result is independent of anything
the caller sends in the request, and a successful reload installs as current
precisely the handle the filesystem holds at that configured path. -/
theorem reload_path_fixed_by_config (fsA : String → Except String AsnDb)
    (fsG : String → Except String CityDb) (sv : Server) (req req' : Request) :
    opensOf (asnReloadHandler fsA sv req).2.1 = [sv.cfg.asnDB] ∧
    opensOf (geoReloadHandler fsG sv req).2.1 = [sv.cfg.geoDB] ∧
    asnReloadHandler fsA sv req = asnReloadHandler fsA sv req' ∧
    geoReloadHandler fsG sv req = geoReloadHandler fsG sv req' ∧
    (∀ dbA : AsnDb, fsA sv.cfg.asnDB = .ok dbA →
      ((asnReloadHandler fsA sv req).1).asnReader = dbA) ∧
    (∀ dbG : CityDb, fsG sv.cfg.geoDB = .ok dbG →
      ((geoReloadHandler fsG sv req).1).locReader = dbG) := by
  refine ⟨?_, ?_, rfl, rfl, ?_, ?_⟩
  · rcases hA : fsA sv.cfg.asnDB with e | dbA <;>
      simp [asnReloadHandler, reloadStep, hA, opensOf]
  · rcases hG : fsG sv.cfg.geoDB with e | dbG <;>
      simp [geoReloadHandler, reloadStep, hG, opensOf]
  · intro dbA hA
    simp [asnReloadHandler, reloadStep, hA, Server.asnReader]
  · intro dbG hG
    simp [geoReloadHandler, reloadStep, hG, Server.locReader]

/-- C10 witness: with a caller-supplied path smuggled into the request, the
reload still opens the configured path, ignores the request, and installs
the configured file's handle. -/
theorem reload_path_fixed_by_config_witness :
    opensOf (asnReloadHandler fsA0 sv0 req1).2.1 = ["asn.mmdb"] ∧
    asnReloadHandler fsA0 sv0 req1 = asnReloadHandler fsA0 sv0 req0 ∧
    ((asnReloadHandler fsA0 sv0 req1).1).asnReader = asnDb0 :=
  ⟨(reload_path_fixed_by_config fsA0 fsG0 sv0 req1 req0).1,
   (reload_path_fixed_by_config fsA0 fsG0 sv0 req1 req0).2.2.1,
   (reload_path_fixed_by_config fsA0 fsG0 sv0 req1 req0).2.2.2.2.1 asnDb0 rfl⟩
